import Mathlib

/-!
Verification of the ytui terminal client core.

A shallow embedding of the navigation state machine (`src/main.rs`) and the
stream resolution engine (`src/structs/video.rs`, `src/config.rs`) of the
ytui repository, together with theorems settling the specification claims.

Rust strings are modelled as `List Char` (written `Str`); the inputs the
claims exercise are ASCII, where Rust byte indices and `List Char` indices
coincide.  Panics are modelled as `Except.error`/`Option.none`.  The numeric
types (`u32` bitrates, `u16` heights) are modelled as `Nat`: the source only
compares and subtracts them (with the branch-guarded `abs_diff`), so no
wrap-around is observable.
-/

/-- Rust `String`/`&str`, as a list of characters (ASCII in all inputs used). -/
abbrev Str := List Char

/-- Rust `str::find` for a substring pattern: index of the first occurrence.
Mirrors `string.find(pat)` (byte index; char index on ASCII). -/
def subFind (s pat : Str) : Option Nat :=
  match s with
  | [] => if pat = [] then some 0 else none
  | _ :: rest =>
    if pat.isPrefixOf s then some 0 else (subFind rest pat).map (· + 1)

/-- Rust `str::contains` (substring containment). -/
def containsSub (s pat : Str) : Bool := (subFind s pat).isSome

/-- Rust slice `s[a..b]` via drop/take (byte slice on ASCII). -/
def strSlice (s : Str) (a b : Nat) : Str := (s.drop a).take (b - a)

/-- Rust `String::replace_range(a..b, repl)` (bounds already checked by callers). -/
def replaceRange (s : Str) (a b : Nat) (repl : Str) : Str :=
  s.take a ++ repl ++ s.drop b

/-- One fuel-indexed step of Rust `str::replace` (left-to-right, non-overlapping).
The fuel is the string length, which bounds the number of steps. -/
def replaceAllFuel (pat repl : Str) : Nat → Str → Str
  | _, [] => []
  | 0, s => s
  | fuel + 1, c :: rest =>
    if pat ≠ [] ∧ pat.isPrefixOf (c :: rest) then
      repl ++ replaceAllFuel pat repl fuel ((c :: rest).drop pat.length)
    else
      c :: replaceAllFuel pat repl fuel rest

/-- Rust `str::replace(pat, repl)`: replace every occurrence, left to right. -/
def replaceAll (s pat repl : Str) : Str := replaceAllFuel pat repl s.length s

/-- Rust `char::split('&')` on a string, keeping empty fields. -/
def splitAmp : Str → List Str
  | [] => [[]]
  | c :: rest =>
    if c = '&' then [] :: splitAmp rest
    else
      match splitAmp rest with
      | [] => [[c]]
      | g :: gs => (c :: g) :: gs

/-- Hexadecimal digit value, as accepted by Rust `u8::from_str_radix(_, 16)`. -/
def hexVal (c : Char) : Option Nat :=
  if '0' ≤ c ∧ c ≤ '9' then some (c.toNat - '0'.toNat)
  else if 'a' ≤ c ∧ c ≤ 'f' then some (c.toNat - 'a'.toNat + 10)
  else if 'A' ≤ c ∧ c ≤ 'F' then some (c.toNat - 'A'.toNat + 10)
  else none

/-- Modelled from the spec: single-pass percent-decoding, the `decode` function of
the `urldecode` crate used by the source (the crate is a dependency, not under
`src/`).  A `%` followed by two hex digits becomes the denoted byte (as a char,
matching Rust `char::from(u8)`); an invalid or truncated escape is passed
through literally. -/
def percentDecode : Str → Str
  | [] => []
  | '%' :: a :: b :: rest =>
    match hexVal a, hexVal b with
    | some x, some y => Char.ofNat (16 * x + y) :: percentDecode rest
    | _, _ => '%' :: a :: b :: percentDecode rest
  | ['%', a] => ['%', a]
  | c :: rest => c :: percentDecode rest

/-- UTF-8 encoding of one char, as iterated by Rust `str::bytes()`. -/
def charUtf8 (c : Char) : List Nat :=
  let n := c.toNat
  if n < 0x80 then [n]
  else if n < 0x800 then [0xC0 + n / 64, 0x80 + n % 64]
  else if n < 0x10000 then [0xE0 + n / 4096, 0x80 + n / 64 % 64, 0x80 + n % 64]
  else [0xF0 + n / 262144, 0x80 + n / 4096 % 64, 0x80 + n / 64 % 64, 0x80 + n % 64]

/-- Rust `str::bytes()` over a whole string. -/
def strBytes (s : Str) : List Nat := (s.map charUtf8).flatten

/-- Maps `s.chars().nth(i).expect(..)` over a list of indices, failing if any is out of range. -/
def getChars (s : Str) : List Nat → Option Str
  | [] => some []
  | i :: rest =>
    match s[i]?, getChars s rest with
    | some c, some cs => some (c :: cs)
    | _, _ => none

/-! ## config.rs: selectors -/

/-- Embeds `config::Selector<T>` (instantiated at `Nat`, covering `u32` and `u16`). -/
inductive Selector where
  | highest
  | closestTo (target : Nat)
  | lowest
deriving DecidableEq, Repr

/-- The branch-guarded `abs_diff` helper inside `Selector::is_better`. -/
def absDiff (a b : Nat) : Nat := if a < b then b - a else a - b

/-- Embeds `Selector::is_better(x, y)`: `x` is the currently selected value, `y` the
candidate; `Ordering::Greater` means the candidate is better. -/
def Selector.is_better : Selector → Nat → Nat → Ordering
  | .highest, x, y => compare y x
  | .closestTo t, x, y => compare (absDiff t x) (absDiff t y)
  | .lowest, x, y => compare x y

/-- Embeds `config::MediaFormat`. -/
inductive MediaFormat where
  | mp4
  | webm
deriving DecidableEq, Repr

/-- Embeds `MediaFormat::to_string`. -/
def MediaFormat.str : MediaFormat → Str
  | .mp4 => "mp4".data
  | .webm => "webm".data

/-- Embeds `config::VideoSelector`. -/
inductive VideoSelector where
  | bitrate (s : Selector)
  | quality (s : Selector)
  | format (f : MediaFormat)
deriving DecidableEq, Repr

/-- Embeds `config::AudioSelector`. -/
inductive AudioSelector where
  | bitrate (s : Selector)
  | language (l : Str)
  | format (f : MediaFormat)
deriving DecidableEq, Repr

/-- Embeds `config::VIDEO_SELECTOR`: 720p at the lowest bitrate. -/
def VIDEO_SELECTOR : List VideoSelector :=
  [.quality (.closestTo 720), .bitrate .lowest]

/-- Embeds `config::AUDIO_SELECTOR`: English audio at the lowest bitrate. -/
def AUDIO_SELECTOR : List AudioSelector :=
  [.language "English".data, .bitrate .lowest]

/-- Rust `bool::cmp` (`false < true`), used for the `Format`/`Language` criteria. -/
def boolCmp (a b : Bool) : Ordering := compare (cond a 1 0 : Nat) (cond b 1 0)

/-! ## video.rs: adaptive formats and the selection fold -/

/-- Embeds `structs::video::AdaptiveFormat`.  The audio track is represented by its
`displayName` (the only field the source reads). -/
inductive AdaptiveFormat where
  | video (bitrate : Nat) (height : Nat) (mimeType : Str) (url : Str)
  | videoCipher (bitrate : Nat) (height : Nat) (mimeType : Str) (signatureCipher : Str)
  | audio (audioTrack : Option Str) (bitrate : Nat) (mimeType : Str) (url : Str)
  | audioCipher (audioTrack : Option Str) (bitrate : Nat) (mimeType : Str) (signatureCipher : Str)
deriving DecidableEq, Repr

/-- Embeds `AdaptiveFormat::bitrate`. -/
def AdaptiveFormat.bitrate : AdaptiveFormat → Nat
  | .video b _ _ _ | .videoCipher b _ _ _ | .audio _ b _ _ | .audioCipher _ b _ _ => b

/-- Embeds `AdaptiveFormat::mime_type`. -/
def AdaptiveFormat.mime_type : AdaptiveFormat → Str
  | .video _ _ m _ | .videoCipher _ _ m _ | .audio _ _ m _ | .audioCipher _ _ m _ => m

/-- Embeds `AdaptiveFormat::height`.  The source panics on audio; the selection fold
only calls it on video-kind formats, so the audio value (0) is never reached. -/
def AdaptiveFormat.height : AdaptiveFormat → Nat
  | .video _ h _ _ | .videoCipher _ h _ _ => h
  | .audio _ _ _ _ | .audioCipher _ _ _ _ => 0

/-- Embeds `AdaptiveFormat::audio_track` (`&None` for video kinds). -/
def AdaptiveFormat.audio_track : AdaptiveFormat → Option Str
  | .audio t _ _ _ | .audioCipher t _ _ _ => t
  | _ => none

/-- One criterion of the video fold: `Ordering` of candidate vs current best,
`Greater` meaning the candidate is better (as in the source's inner `match`). -/
def videoCriterion (sel : VideoSelector) (cur cand : AdaptiveFormat) : Ordering :=
  match sel with
  | .bitrate s => s.is_better cur.bitrate cand.bitrate
  | .format f => boolCmp (containsSub cand.mime_type f.str) (containsSub cur.mime_type f.str)
  | .quality s => s.is_better cur.height cand.height

/-- The closure body of the video partition fold in `VideoResponse::play`:
walk the policy; `Less` returns `true` (keep current), `Greater` returns
`false` (replace), a full tie returns `true`. -/
def videoClosure (cur cand : AdaptiveFormat) : List VideoSelector → Bool
  | [] => true
  | sel :: rest =>
    match videoCriterion sel cur cand with
    | .lt => true
    | .eq => videoClosure cur cand rest
    | .gt => false

/-- One criterion of the audio fold (same `Greater`-is-better convention). -/
def audioCriterion (sel : AudioSelector) (cur cand : AdaptiveFormat) : Ordering :=
  match sel with
  | .bitrate s => s.is_better cur.bitrate cand.bitrate
  | .format f => boolCmp (containsSub cand.mime_type f.str) (containsSub cur.mime_type f.str)
  | .language l =>
    boolCmp
      (match cand.audio_track with | some n => n = l | none => false)
      (match cur.audio_track with | some n => n = l | none => false)

/-- The closure body of the audio partition fold in `VideoResponse::play`.
Note the returns relative to `videoClosure`: `Less` returns `false`,
`Greater` returns `true`, a full tie returns `false`. -/
def audioClosure (cur cand : AdaptiveFormat) : List AudioSelector → Bool
  | [] => false
  | sel :: rest =>
    match audioCriterion sel cur cand with
    | .lt => false
    | .eq => audioClosure cur cand rest
    | .gt => true

/-- One iteration of the `for adaptive_format in adaptiveFormats` loop:
`found = !ideal.is_some_and(closure)`; if `found`, the candidate is selected. -/
def selectStep (vp : List VideoSelector) (ap : List AudioSelector)
    (acc : Option AdaptiveFormat × Option AdaptiveFormat) (f : AdaptiveFormat) :
    Option AdaptiveFormat × Option AdaptiveFormat :=
  match f with
  | .video _ _ _ _ | .videoCipher _ _ _ _ =>
    let found := !(match acc.1 with
      | none => false
      | some cur => videoClosure cur f vp)
    (if found then some f else acc.1, acc.2)
  | .audio _ _ _ _ | .audioCipher _ _ _ _ =>
    let found := !(match acc.2 with
      | none => false
      | some cur => audioClosure cur f ap)
    (acc.1, if found then some f else acc.2)

/-- The whole selection loop of `VideoResponse::play`, over both partitions,
parameterised by the two configured policies. -/
def selectFormats (vp : List VideoSelector) (ap : List AudioSelector)
    (formats : List AdaptiveFormat) : Option AdaptiveFormat × Option AdaptiveFormat :=
  formats.foldl (selectStep vp ap) (none, none)

/-! ## video.rs: signature deciphering and n-challenge substitution -/

/-- The indexing step inside `decipher_signature`.  The synthetic
input is the string of chars `'\0'` up to (excluding) `char(s.len())`; the
bytes of the script's answer are used as indices back into `s`
(`.bytes().map(|i| s.chars().nth(i).expect(..))`).  `none` models the
out-of-range panic. -/
def descramble (callS : Str → Str) (s : Str) : Option Str :=
  let synthetic := (List.range s.length).map Char.ofNat
  getChars s (strBytes (callS synthetic))

/-- Embeds `structs::video::decipher_signature`, parameterised by the percent-decoder
`dec` (the `urldecode` crate boundary) and the extracted `s` script function
`callS`.  The cipher's fields are taken from the back (`next_back`), assuming
the order `s`, `sp`, `url`; `none` models the panics (too few fields, too-short
fields, bad indices from the script). -/
def decipher_signature (dec : Str → Str) (callS : Str → Str) (signatureCipher : Str) :
    Option Str :=
  match (splitAmp signatureCipher).reverse with
  | urlF :: spF :: sF :: _ =>
    if urlF.length < 4 ∨ spF.length < 3 ∨ sF.length < 2 then none
    else
      let url := urlF.drop 4
      let sp := spF.drop 3
      let s := dec (sF.drop 2)
      match descramble callS s with
      | none => none
      | some d => some (dec (replaceAll url "%25".data "%".data) ++ '&' :: sp ++ '=' :: d)
  | _ => none

/-- The `AdaptiveFormat::Video` arm of the url resolution in
`VideoResponse::play`: find the token after `&n=` up to the next `&`
(`unwrap_or(url.len())` — note: the *whole* length, as in the source), call the
extracted `f` function on it, cache the result and substitute it in place.
Errors model the source's panics, in source evaluation order. -/
def videoArmPlain (callF : Str → Str) (url : Str) : Except String (Str × Option Str) :=
  match subFind url "&n=".data with
  | none => .error "Video URL should contain `n` challenge"
  | some i =>
    let nStart := i + 3
    let nEnd := nStart + ((subFind (url.drop nStart) "&".data).getD url.length)
    let dn := callF (strSlice url nStart nEnd)
    if url.length < nEnd then .error "replace_range out of bounds"
    else .ok (replaceRange url nStart nEnd dn, some dn)

/-- The `AdaptiveFormat::Audio` arm: find the token after `&n=`, then
substitute the *cached* decrypted n (`decrypted_n.expect(..)`), which is only
ever set by the plain `Video` arm. -/
def audioArmPlain (cache : Option Str) (url : Str) : Except String Str :=
  match subFind url "&n=".data with
  | none => .error "Audio URL should contain `n` challenge"
  | some i =>
    let nStart := i + 3
    let nEnd := nStart + ((subFind (url.drop nStart) "&".data).getD url.length)
    match cache with
    | none => .error "`n` challenge should be solved"
    | some dn =>
      if url.length < nEnd then .error "replace_range out of bounds"
      else .ok (replaceRange url nStart nEnd dn)

/-- The audio half of the url resolution (second argument of `video_player`),
given the already-resolved video url and the `decrypted_n` cache as left by the
video half. -/
def audioSideResolve (dec callS : Str → Str) (idealAudio : AdaptiveFormat)
    (videoUrl : Str) (cache : Option Str) : Except String (Str × Str) :=
  match idealAudio with
  | .audio _ _ _ url =>
    match audioArmPlain cache url with
    | .error e => .error e
    | .ok au => .ok (videoUrl, au)
  | .audioCipher _ _ _ sc =>
    match decipher_signature dec callS sc with
    | none => .error "decipher_signature panicked"
    | some au => .ok (videoUrl, au)
  | _ => .error "`ideal_audio` should always be audio"

/-- The url-resolution step of `VideoResponse::play` on the two selected
formats: the video argument of `video_player` is evaluated first (setting the
`decrypted_n` cache only in the plain `Video` arm), then the audio argument.
Errors model the panics (`expect`/`unreachable!`). -/
def resolveUrls (dec callF callS : Str → Str) (idealVideo idealAudio : AdaptiveFormat) :
    Except String (Str × Str) :=
  match idealVideo with
  | .video _ _ _ url =>
    match videoArmPlain callF url with
    | .error e => .error e
    | .ok (vu, cache) => audioSideResolve dec callS idealAudio vu cache
  | .videoCipher _ _ _ sc =>
    match decipher_signature dec callS sc with
    | none => .error "decipher_signature panicked"
    | some vu => audioSideResolve dec callS idealAudio vu none
  | _ => .error "`ideal_video` should always be a video"

/-! ## main.rs: pages, items and the navigation state machine -/

/-- Embeds `structs::Node`: what activating an item does. -/
inductive Node where
  | header (continuation : String)
  | video (id : String)
  | game (browseId : String) (params : Option String)
  | search (query : String) (params : Option String)
  | channel (browseId : String) (params : Option String)
  | playlist (id : String)
  | transcript (params : String)
  | commentSection (token : String)
  | comment (token : String)
  | none
deriving DecidableEq, Repr

/-- One row of the interface: the `(list, info_vec)` pair entry produced by a
Response Decoder (title standing for the styled text, plus the `Node`). -/
structure Item where
  title : String
  node : Node
deriving DecidableEq, Repr

/-- Embeds `main::Page`.  The `previous: (Box<Page>, usize)` tuple is flattened into
two fields `prev`/`prevIdx`. -/
inductive Page where
  | home (continuation : Option String)
  | category (continuation : Option String) (prev : Page) (prevIdx : Nat)
  | game (browse_id : String) (continuation : Option String) (params : Option String)
      (prev : Page) (prevIdx : Nat)
  | search (query : String) (params : Option String) (continuation : Option String)
      (prev : Page) (prevIdx : Nat)
  | next (video_id : String) (continuation : Option String) (prev : Page) (prevIdx : Nat)
  | transcript (params : String) (prev : Page) (prevIdx : Nat)
  | commentSection (first_continuation : String) (continuation : Option String)
      (prev : Page) (prevIdx : Nat)
  | comment (first_continuation : String) (continuation : Option String)
      (prev : Page) (prevIdx : Nat)
deriving DecidableEq, Repr

/-- The Response Decoder / HTTP boundary of the spec: each field stands for one
endpoint + decoder combination used by `Page::request` / `Page::continue`,
mapping the request data the source sends to the decoded
`(items, new continuation)` pair. -/
structure Env where
  /-- Home request: `extract_json::<RichGridRenderer>` of the scraped home page. -/
  richGrid : List Item × Option String
  /-- Decoder `ContinuationResponse<RichGridRendererContent>` on `/browse` (Category
  request, Home and Game continuation), keyed by the sent continuation. -/
  contRichGrid : Option String → List Item × Option String
  /-- Decoder `GeneralResponse` on `/browse` (Game request): browse id and params. -/
  general : String → Option String → List Item × Option String
  /-- Decoder `SearchResponse` on `/search` (Search request): query and params. -/
  searchResp : String → Option String → List Item × Option String
  /-- Decoder `NextResponse` on `/next` (Next request): video id. -/
  nextResp : String → List Item × Option String
  /-- Decoder `TranscriptResponse` on `/get_transcript` (Transcript request): params. -/
  transcriptResp : String → List Item
  /-- Decoder `CommentsResponse` on `/next` (CommentSection request): first token. -/
  commentsResp : String → List Item × Option String
  /-- Decoder `ContinuationResponse<Comment>` on `/next` (Comment request and
  continuation), keyed by the sent token. -/
  contComment : String → List Item × Option String
  /-- Decoder `SearchContinuationResponse` on `/search` (Search continuation). -/
  searchCont : String → List Item × Option String
  /-- Decoder `ContinuationResponse<SecondaryResultsResult>` on `/next` (Next
  continuation). -/
  contSecondary : String → List Item × Option String
  /-- Decoder `ContinuationResponse<ContinuationItem>` on `/next` (CommentSection
  continuation). -/
  contContinuationItem : String → List Item × Option String

/-- Embeds `Page::request`: the initial (fresh) fetch.  Returns the decoded items and
the updated page.  In the `Category` arm the decoder's returned token is
discarded (`.into_widgets(&mut list, &mut info_vec);` as a statement) and the
stored continuation is left as it was. -/
def Page.request (env : Env) : Page → List Item × Page
  | .home _ =>
    ((env.richGrid).1, .home (env.richGrid).2)
  | .category c prev pi =>
    ((env.contRichGrid c).1, .category c prev pi)
  | .game b _ p prev pi =>
    ((env.general b p).1, .game b (env.general b p).2 p prev pi)
  | .search q p _ prev pi =>
    ((env.searchResp q p).1, .search q p (env.searchResp q p).2 prev pi)
  | .next v _ prev pi =>
    ((env.nextResp v).1, .next v (env.nextResp v).2 prev pi)
  | .transcript p prev pi =>
    (env.transcriptResp p, .transcript p prev pi)
  | .commentSection f _ prev pi =>
    ((env.commentsResp f).1, .commentSection f (env.commentsResp f).2 prev pi)
  | .comment f _ prev pi =>
    ((env.contComment f).1, .comment f (env.contComment f).2 prev pi)

/-- Embeds `Page::continue`: appends the newly decoded items to the passed buffer and
stores the returned continuation.  Only the arms present in the source match a
`Some` token (`continuation @ Some(_)`); everything else — including
`Category` — falls through to the final `_ => ()` no-op arm. -/
def Page.continueFetch (env : Env) (p : Page) (items : List Item) : List Item × Page :=
  match p with
  | .home (some t) =>
    (items ++ (env.contRichGrid (some t)).1, .home (env.contRichGrid (some t)).2)
  | .game b (some t) pr prev pi =>
    (items ++ (env.contRichGrid (some t)).1,
      .game b (env.contRichGrid (some t)).2 pr prev pi)
  | .search q pr (some t) prev pi =>
    (items ++ (env.searchCont t).1, .search q pr (env.searchCont t).2 prev pi)
  | .next v (some t) prev pi =>
    (items ++ (env.contSecondary t).1, .next v (env.contSecondary t).2 prev pi)
  | .commentSection f (some t) prev pi =>
    (items ++ (env.contContinuationItem t).1,
      .commentSection f (env.contContinuationItem t).2 prev pi)
  | .comment f (some t) prev pi =>
    (items ++ (env.contComment t).1, .comment f (env.contComment t).2 prev pi)
  | p => (items, p)

/-- Holds (`true`) when the page's stored continuation is `None` or the variant has no
continuation field (`Transcript`). -/
def Page.contAbsent : Page → Bool
  | .home none => true
  | .category none _ _ => true
  | .game _ none _ _ _ => true
  | .search _ _ none _ _ => true
  | .next _ none _ _ => true
  | .transcript _ _ _ => true
  | .commentSection _ none _ _ => true
  | .comment _ none _ _ => true
  | _ => false

/-- The `previous` link: `None` for `Home`, otherwise the owned predecessor
page and the saved selected index. -/
def Page.previous : Page → Option (Page × Nat)
  | .home _ => none
  | .category _ prev pi => some (prev, pi)
  | .game _ _ _ prev pi => some (prev, pi)
  | .search _ _ _ prev pi => some (prev, pi)
  | .next _ _ prev pi => some (prev, pi)
  | .transcript _ prev pi => some (prev, pi)
  | .commentSection _ _ prev pi => some (prev, pi)
  | .comment _ _ prev pi => some (prev, pi)

/-- The interface state the event loop owns: current page, the decoded item
list (`info_vec`, kept in lockstep with `list`), and the cursor. -/
structure UiState where
  page : Page
  items : List Item
  selected : Nat
deriving DecidableEq, Repr

/-- The `KeyCode::Left | 'b'` handler.  On `Home` only the cursor moves to the
top.  Otherwise, in source order: restore the previous page, select the saved
index clamped against the *current* `info_vec` (`previous.1.min(info_vec.len()
- 1)`, truncated subtraction), and only then re-fetch the restored page. -/
def back (env : Env) (s : UiState) : UiState :=
  match s.page.previous with
  | Option.none => { s with selected := 0 }
  | some (prev, pi) =>
    let sel := min pi (s.items.length - 1)
    let fetched := prev.request env
    { page := fetched.2, items := fetched.1, selected := sel }

/-- The `KeyCode::Right | 'l'` (activate) handler, with the whole
`Node::Video` arm abstracted as `videoStep` (its network/script side effects
do not touch the navigation state; a panic inside it is an `error`).  Pushing
arms build the new page with `previous = (current page, selected index)`,
move the cursor to the top and re-fetch; `Channel`/`Playlist` are `todo!()`
(a panic, modelled as `error "not yet implemented"`); `Node::None` does
nothing.  Indexing `info_vec[selected]` out of range is also a panic. -/
def activate (env : Env) (videoStep : String → Except String Unit) (s : UiState) :
    Except String UiState :=
  match s.items[s.selected]? with
  | Option.none => .error "index out of bounds"
  | some item =>
    let push (p : Page) : Except String UiState :=
      let fetched := p.request env
      .ok ⟨fetched.2, fetched.1, 0⟩
    match item.node with
    | .header t => push (.category (some t) s.page s.selected)
    | .video id =>
      match videoStep id with
      | .ok _ => .ok s
      | .error e => .error e
    | .game b pr => push (.game b Option.none pr s.page s.selected)
    | .search q pr => push (.search q pr Option.none s.page s.selected)
    | .channel _ _ => .error "not yet implemented"
    | .playlist _ => .error "not yet implemented"
    | .transcript pr => push (.transcript pr s.page s.selected)
    | .commentSection t => push (.commentSection t Option.none s.page s.selected)
    | .comment t => push (.comment t Option.none s.page s.selected)
    | .none => .ok s

/-! ## main.rs: video activation error handling -/

/-- Embeds `utils::extract_json`: find `start_str`, find `end_str` after it, and
parse the slice; any failure — markers missing *or any parse error at all*
(`from_slice(..).ok()`) — collapses to `none`. -/
def extractJson {α : Type} (parse : Str → Except String α)
    (s startStr endStr : Str) (overshoot : Nat) : Option α :=
  match subFind s startStr with
  | Option.none => Option.none
  | some start =>
    match subFind (s.drop start) endStr with
    | Option.none => Option.none
    | some rel =>
      let endIdx := start + rel + endStr.length - overshoot
      (parse (strSlice s start endIdx)).toOption

/-- What a video activation comes to, at decode-error granularity. -/
inductive VideoOutcome where
  | played
  | notice
  | fatal
deriving DecidableEq, Repr

/-- The cached-script path of the `Node::Video` arm: decode the `/player`
response; a decode error equal to ``missing field `streamingData``` prints a
notice and resumes, any other decode error panics. -/
def cachedVideoOutcome {α : Type} (result : Except String α) : VideoOutcome :=
  match result with
  | .ok _ => .played
  | .error e =>
    if e = "missing field `streamingData`" then .notice else .fatal

/-- The first-video path of the `Node::Video` arm (no cached script yet):
`extract_json::<VideoResponse>(&mut response, .., .., 1)`; `Some` plays,
`None` prints the age-restricted notice. -/
def firstVideoOutcome {α : Type} (parse : Str → Except String α) (response : Str) :
    VideoOutcome :=
  match extractJson parse response "\x7b\"re".data "\x7d;".data 1 with
  | some _ => .played
  | Option.none => .notice

/-! ## Concrete instances used by witnesses and counterexamples -/

/-- Concrete percent-decoder: the `urldecode` boundary instantiated with
`percentDecode`. -/
def strDecode (s : Str) : Str := percentDecode s

/-- Concrete extracted `f` (n-challenge) script function for examples. -/
def callF0 : Str → Str :=
  fun t => if t = "AAA".data then "VV".data else "ZZ".data

/-- Concrete extracted `s` (signature) script function for examples: returns the
three chars with code points 2, 0, 1 (a permutation of the synthetic input for a
length-3 signature). -/
def callS210 : Str → Str := fun _ => [Char.ofNat 2, Char.ofNat 0, Char.ofNat 1]

/-- Concrete player-response parser for examples: always fails with a decode
error different from the missing-`streamingData` one. -/
def parse0 : Str → Except String Unit := fun _ => .error "missing field `videoDetails`"

/-- A decorative item used to populate concrete item lists. -/
def item0 : Item := ⟨"t", .none⟩

/-- A concrete Response Decoder environment: the home page decodes to ten
items, every other decoder yields one item and the continuation `"new"`. -/
def env0 : Env where
  richGrid := (List.replicate 10 item0, Option.none)
  contRichGrid := fun _ => ([item0], some "new")
  general := fun _ _ => ([item0], some "new")
  searchResp := fun _ _ => ([item0], some "new")
  nextResp := fun _ => ([item0], some "new")
  transcriptResp := fun _ => [item0]
  commentsResp := fun _ => ([item0], some "new")
  contComment := fun _ => ([item0], some "new")
  searchCont := fun _ => ([item0], some "new")
  contSecondary := fun _ => ([item0], some "new")
  contContinuationItem := fun _ => ([item0], some "new")

/-! ## Claim C1 -/

/-- C1: in the video partition the fold does follow the policy order (with
formats A (bitrate 100, height 480) and B (bitrate 200, height 480) and policy
`[Quality(ClosestTo(480)), Bitrate(Lowest)]`, A is chosen regardless of input
order) — but in the audio partition the claim fails: with the configured
`AUDIO_SELECTOR`, the language criterion ties (`eq`) and the bitrate criterion
strictly prefers the 50-bitrate candidate (`gt`), yet the fold keeps the
100-bitrate current best, because the audio closure returns the inverted
boolean (its `Greater` arm returns `true`, which `found = !is_some_and(..)`
turns into "keep").  The claim's "a candidate strictly preferred by that
criterion becomes the new current best" is falsified by the last conjunct. -/
theorem c1_selection_fold_eval :
    ((selectFormats [.quality (.closestTo 480), .bitrate .lowest] []
        [.video 100 480 "m".data "uA".data, .video 200 480 "m".data "uB".data]).1
      = some (.video 100 480 "m".data "uA".data)) ∧
    ((selectFormats [.quality (.closestTo 480), .bitrate .lowest] []
        [.video 200 480 "m".data "uB".data, .video 100 480 "m".data "uA".data]).1
      = some (.video 100 480 "m".data "uA".data)) ∧
    (audioCriterion (.language "English".data)
        (.audio Option.none 100 "m".data "u1".data)
        (.audio Option.none 50 "m".data "u2".data) = .eq) ∧
    (audioCriterion (.bitrate .lowest)
        (.audio Option.none 100 "m".data "u1".data)
        (.audio Option.none 50 "m".data "u2".data) = .gt) ∧
    ((selectFormats [] AUDIO_SELECTOR
        [.audio Option.none 100 "m".data "u1".data,
         .audio Option.none 50 "m".data "u2".data]).2
      = some (.audio Option.none 100 "m".data "u1".data)) := by decide

/-! ## Claim C2 -/

/-- C2: on a full tie under every criterion the *video* fold keeps the
first-seen format, but the *audio* fold replaces the current best (the tie
case of the audio closure returns `false`, which `found = !is_some_and(..)`
turns into "replace"), so the last-seen audio format wins — falsifying the
claim for the audio partition. -/
theorem c2_tie_break_eval :
    ((selectFormats VIDEO_SELECTOR AUDIO_SELECTOR
        [.video 100 480 "m".data "u1".data, .video 100 480 "m".data "u2".data,
         .audio Option.none 100 "m".data "u1".data,
         .audio Option.none 100 "m".data "u2".data]).1
      = some (.video 100 480 "m".data "u1".data)) ∧
    ((selectFormats VIDEO_SELECTOR AUDIO_SELECTOR
        [.video 100 480 "m".data "u1".data, .video 100 480 "m".data "u2".data,
         .audio Option.none 100 "m".data "u1".data,
         .audio Option.none 100 "m".data "u2".data]).2
      = some (.audio Option.none 100 "m".data "u2".data)) ∧
    ((.audio Option.none 100 "m".data "u2".data : AdaptiveFormat)
      ≠ .audio Option.none 100 "m".data "u1".data) ∧
    (videoClosure (.video 100 480 "m".data "u1".data)
        (.video 100 480 "m".data "u2".data) VIDEO_SELECTOR = true) ∧
    (audioClosure (.audio Option.none 100 "m".data "u1".data)
        (.audio Option.none 100 "m".data "u2".data) AUDIO_SELECTOR = false) := by decide

/-! ## Claim C9 -/

/-- C9: `continue()` on a page whose stored continuation is `None` (or which
has no continuation field) leaves the item list and the page — including its
stored continuation token — unchanged: it is a no-op, not an error. -/
theorem c9_continue_absent_noop (env : Env) (p : Page) (items : List Item)
    (h : p.contAbsent = true) : Page.continueFetch env p items = (items, p) := by
  cases p with
  | home c => cases c with
    | none => rfl
    | some t => exact Bool.noConfusion h
  | category c prev pi => rfl
  | game b c pr prev pi => cases c with
    | none => rfl
    | some t => exact Bool.noConfusion h
  | search q pr c prev pi => cases c with
    | none => rfl
    | some t => exact Bool.noConfusion h
  | next v c prev pi => cases c with
    | none => rfl
    | some t => exact Bool.noConfusion h
  | transcript pr prev pi => rfl
  | commentSection f c prev pi => cases c with
    | none => rfl
    | some t => exact Bool.noConfusion h
  | comment f c prev pi => cases c with
    | none => rfl
    | some t => exact Bool.noConfusion h

/-- Witness for C9 at a concrete exhausted page. -/
theorem c9_continue_absent_noop_witness :
    Page.continueFetch env0 (.search "q" Option.none Option.none (.home Option.none) 0) [item0]
      = ([item0], .search "q" Option.none Option.none (.home Option.none) 0) :=
  c9_continue_absent_noop env0 _ [item0] (by decide)

/-! ## Claim C4 -/

/-- C4 counterexample: a `Category` page with a present (`Some`) continuation
token, `continue()`d in an environment whose decoder would return a non-empty
item batch, leaves the item buffer and the stored token unchanged — the
source's `Page::continue` has no `Category` arm, so `Category` falls through
to the `_ => ()` no-op, falsifying the claim's "in particular this holds for
the Category page variant". -/
theorem c4_counterexample :
    (env0.contRichGrid (some "t")).1 ≠ [] ∧
    Page.continueFetch env0 (.category (some "t") (.home Option.none) 0) []
      = ([], .category (some "t") (.home Option.none) 0) := by
  exact ⟨by decide, rfl⟩

/-- C4 amended: `continue()` appends the decoded items in place and stores the
fetch's returned continuation for the variants that have a `Some`-token arm —
`Home`, `Game`, `Search`, `Next`, `CommentSection`, `Comment` — while for
`Category` (despite a present token) it is a no-op. -/
theorem c4_continue_appends :
    (∀ (env : Env) (items : List Item) (t : String),
      Page.continueFetch env (.home (some t)) items
        = (items ++ (env.contRichGrid (some t)).1, .home (env.contRichGrid (some t)).2)) ∧
    (∀ (env : Env) (items : List Item) (b : String) (t : String) (pr : Option String)
        (prev : Page) (pi : Nat),
      Page.continueFetch env (.game b (some t) pr prev pi) items
        = (items ++ (env.contRichGrid (some t)).1,
            .game b (env.contRichGrid (some t)).2 pr prev pi)) ∧
    (∀ (env : Env) (items : List Item) (q : String) (pr : Option String) (t : String)
        (prev : Page) (pi : Nat),
      Page.continueFetch env (.search q pr (some t) prev pi) items
        = (items ++ (env.searchCont t).1, .search q pr (env.searchCont t).2 prev pi)) ∧
    (∀ (env : Env) (items : List Item) (v : String) (t : String) (prev : Page) (pi : Nat),
      Page.continueFetch env (.next v (some t) prev pi) items
        = (items ++ (env.contSecondary t).1, .next v (env.contSecondary t).2 prev pi)) ∧
    (∀ (env : Env) (items : List Item) (f : String) (t : String) (prev : Page) (pi : Nat),
      Page.continueFetch env (.commentSection f (some t) prev pi) items
        = (items ++ (env.contContinuationItem t).1,
            .commentSection f (env.contContinuationItem t).2 prev pi)) ∧
    (∀ (env : Env) (items : List Item) (f : String) (t : String) (prev : Page) (pi : Nat),
      Page.continueFetch env (.comment f (some t) prev pi) items
        = (items ++ (env.contComment t).1, .comment f (env.contComment t).2 prev pi)) ∧
    (∀ (env : Env) (items : List Item) (c : Option String) (prev : Page) (pi : Nat),
      Page.continueFetch env (.category c prev pi) items = (items, .category c prev pi)) :=
  ⟨fun _ _ _ => rfl, fun _ _ _ _ _ _ _ => rfl, fun _ _ _ _ _ _ _ => rfl,
   fun _ _ _ _ _ _ => rfl, fun _ _ _ _ _ _ => rfl, fun _ _ _ _ _ _ => rfl,
   fun _ _ _ _ _ => rfl⟩

/-! ## Claim C3 -/

/-- C3 counterexample: going back from a `Category` page showing 3 items to a
`Home` page whose fresh re-fetch yields 10 items, with saved index 5.  The
claim requires the restored index `min 5 (10 - 1) = 5`; the code clamps
against the list of the page being *left* (`previous.1.min(info_vec.len() -
1)` before `page.request`), giving 2. -/
theorem c3_counterexample :
    (back env0 ⟨.category (some "t") (.home Option.none) 5, [item0, item0, item0], 2⟩).items.length
      = 10 ∧
    (back env0 ⟨.category (some "t") (.home Option.none) 5, [item0, item0, item0], 2⟩).selected
      = 2 ∧
    ¬ (back env0 ⟨.category (some "t") (.home Option.none) 5,
        [item0, item0, item0], 2⟩).selected
      = min 5
        ((back env0 ⟨.category (some "t") (.home Option.none) 5,
          [item0, item0, item0], 2⟩).items.length - 1) := by
  exact ⟨by decide, rfl, by decide⟩

/-- C3 amended: back from a non-`Home` page restores the previous page,
re-fetches it fresh, and selects the saved index clamped to the length of the
item list of the page being left — the clamp happens before the re-fetch, so
it uses the old list, not the restored page's freshly fetched one. -/
theorem c3_back_clamps_before_refetch (env : Env) (s : UiState) (prev : Page) (pi : Nat)
    (h : s.page.previous = some (prev, pi)) (_hne : s.items ≠ []) :
    back env s
      = ⟨(prev.request env).2, (prev.request env).1, min pi (s.items.length - 1)⟩ := by
  unfold back
  rw [h]

/-- Witness for C3 (amended) at the concrete counterexample state. -/
theorem c3_back_clamps_before_refetch_witness :
    back env0 ⟨.category (some "t") (.home Option.none) 5, [item0, item0, item0], 2⟩
      = ⟨(Page.request env0 (.home Option.none)).2, (Page.request env0 (.home Option.none)).1,
          min 5 ([item0, item0, item0].length - 1)⟩ :=
  c3_back_clamps_before_refetch env0
    ⟨.category (some "t") (.home Option.none) 5, [item0, item0, item0], 2⟩
    (.home Option.none) 5 rfl (by decide)

/-! ## Claim C5 -/

/-- C5 counterexample: activating a selected `Channel` item does not leave the
state unchanged — it hits the source's `todo!()` and panics (`error`), so the
transition is a crash, not a visible no-op. -/
theorem c5_counterexample :
    activate env0 (fun _ => Except.ok ())
        ⟨.home Option.none, [⟨"c", .channel "UC" Option.none⟩], 0⟩
      = .error "not yet implemented" ∧
    (Except.error "not yet implemented"
      ≠ (Except.ok (⟨.home Option.none, [⟨"c", .channel "UC" Option.none⟩], 0⟩ : UiState)
          : Except String UiState)) :=
  ⟨rfl, fun h => Except.noConfusion h⟩

/-- C5 amended: activating a selected item whose node is `Channel` or
`Playlist` panics with the `todo!()` "not yet implemented" panic — the
session crashes instead of surfacing a no-op. -/
theorem c5_channel_playlist_panics (env : Env) (videoStep : String → Except String Unit)
    (s : UiState) (item : Item) (hsel : s.items[s.selected]? = some item)
    (hnode : (∃ b pr, item.node = .channel b pr) ∨ ∃ pid, item.node = .playlist pid) :
    activate env videoStep s = .error "not yet implemented" := by
  obtain ⟨title, node⟩ := item
  rcases hnode with ⟨b, pr, hn⟩ | ⟨pid, hn⟩ <;> subst hn <;>
    (unfold activate; rw [hsel])

/-- Witness for C5 (amended) on a concrete channel item. -/
theorem c5_channel_playlist_panics_witness :
    activate env0 (fun _ => Except.ok ())
        ⟨.home Option.none, [⟨"c", .channel "UC" Option.none⟩], 0⟩
      = .error "not yet implemented" :=
  c5_channel_playlist_panics env0 (fun _ => Except.ok ())
    ⟨.home Option.none, [⟨"c", .channel "UC" Option.none⟩], 0⟩
    ⟨"c", .channel "UC" Option.none⟩ rfl (Or.inl ⟨"UC", Option.none, rfl⟩)

/-! ## Claim C8 -/

/-- C8 counterexample: the decode error ``missing field `videoDetails``` —
not the missing-`streamingData` one — is fatal on the cached-script path but
produces the recoverable notice on the first-video path, because
`extract_json` collapses *every* parse error to `None`; so the claimed
discrimination does not hold on the first activation of a session. -/
theorem c8_counterexample :
    parse0 "x".data = .error "missing field `videoDetails`" ∧
    cachedVideoOutcome (parse0 "x".data) = .fatal ∧
    firstVideoOutcome parse0 "\x7b\"re x \x7d; tail".data = .notice :=
  ⟨rfl, rfl, rfl⟩

/-- C8 amended: on activations with a cached script engine, exactly the
``missing field `streamingData``` decode error is recoverable (notice) and
every other decode error is fatal; on the first activation of a session the
`extract_json` path never reaches the fatal outcome — every decode failure
(and missing marker) is surfaced as the recoverable notice. -/
theorem c8_decode_error_discrimination :
    (cachedVideoOutcome (Except.error "missing field `streamingData`" : Except String Unit)
      = .notice) ∧
    (∀ (e : String), e ≠ "missing field `streamingData`" →
      cachedVideoOutcome (Except.error e : Except String Unit) = .fatal) ∧
    (∀ (parse : Str → Except String Unit) (response : Str),
      firstVideoOutcome parse response ≠ .fatal) := by
  refine ⟨rfl, fun e h => ?_, fun parse response => ?_⟩
  · show (if e = "missing field `streamingData`" then VideoOutcome.notice
      else VideoOutcome.fatal) = VideoOutcome.fatal
    exact if_neg h
  · unfold firstVideoOutcome
    cases extractJson parse response "\x7b\"re".data "\x7d;".data 1 <;> simp

/-- Witness for C8 (amended) at a concrete non-`streamingData` decode error. -/
theorem c8_decode_error_discrimination_witness :
    cachedVideoOutcome (Except.error "missing field `videoDetails`" : Except String Unit)
      = .fatal :=
  c8_decode_error_discrimination.2.1 "missing field `videoDetails`" (by decide)

/-! ## Claim C10 -/

/-- C10: when the selected video format is a signature-cipher one (so the
`decrypted_n` cache is never filled) and the selected audio format is a
plain-url one whose url does contain an n-challenge, the audio substitution
hits `decrypted_n.expect("`n` challenge should be solved")` on the absent
cache and panics. -/
theorem c10_cipher_video_plain_audio_panics (dec callF callS : Str → Str)
    (b h : Nat) (m sc : Str) (tr : Option Str) (ab : Nat) (am url : Str) (vu : Str)
    (hv : decipher_signature dec callS sc = some vu)
    (i : Nat) (ha : subFind url "&n=".data = some i) :
    resolveUrls dec callF callS (.videoCipher b h m sc) (.audio tr ab am url)
      = .error "`n` challenge should be solved" := by
  simp only [resolveUrls]
  rw [hv]
  simp only [audioSideResolve, audioArmPlain]
  rw [ha]

/-- Witness for C10 at concrete formats. -/
theorem c10_cipher_video_plain_audio_panics_witness :
    resolveUrls strDecode callF0 callS210
        (.videoCipher 1 480 "m".data "s=XYZ&sp=sig&url=u%3A".data)
        (.audio Option.none 1 "m".data "a&n=BBB&y=2".data)
      = .error "`n` challenge should be solved" :=
  c10_cipher_video_plain_audio_panics strDecode callF0 callS210 1 480 "m".data
    "s=XYZ&sp=sig&url=u%3A".data Option.none 1 "m".data "a&n=BBB&y=2".data
    "u:&sig=ZXY".data (by decide) 1 (by decide)

/-! ## Claim C6 -/

/-- C6 counterexample: the selected video url carries token `AAA`, the
selected audio url carries token `BBB`; the decrypt function maps `AAA` to
`VV` and `BBB` to `ZZ`.  The resolved audio url contains `VV` — the *cached*
decryption of the video's token — not `ZZ`, the decryption of the audio
format's own token, falsifying the claim for the audio format. -/
theorem c6_counterexample :
    resolveUrls strDecode callF0 callS210
        (.video 1 480 "m".data "v&n=AAA&x=1".data)
        (.audio Option.none 1 "m".data "a&n=BBB&y=2".data)
      = .ok ("v&n=VV&x=1".data, "a&n=VV&y=2".data) ∧
    callF0 "BBB".data = "ZZ".data ∧
    ("a&n=VV&y=2".data : Str) ≠ "a&n=ZZ&y=2".data := by
  exact ⟨rfl, by decide, by decide⟩

/-- Length of the `"&n="` marker. -/
theorem nMark_len : ("&n=".data).length = 3 := rfl

/-- Generic evaluation of the plain-`Video` arm once the marker and the
following `&` have been located: the token `url[i+3..i+3+j]` is decrypted,
cached, and substituted in place. -/
theorem videoArmPlain_eq_of (callF : Str → Str) (url : Str) (i j : Nat)
    (h1 : subFind url "&n=".data = some i)
    (h2 : subFind (url.drop (i + 3)) "&".data = some j)
    (hb : ¬ url.length < i + 3 + j) :
    videoArmPlain callF url
      = .ok (replaceRange url (i + 3) (i + 3 + j) (callF (strSlice url (i + 3) (i + 3 + j))),
          some (callF (strSlice url (i + 3) (i + 3 + j)))) := by
  simp only [videoArmPlain]
  rw [h1]
  simp only [h2, Option.getD_some]
  rw [if_neg hb]

/-- Generic evaluation of the plain-`Audio` arm with a filled cache: the token
`url[i+3..i+3+j]` is replaced by the cached value `dn`. -/
theorem audioArmPlain_eq_of (dn : Str) (url : Str) (i j : Nat)
    (h1 : subFind url "&n=".data = some i)
    (h2 : subFind (url.drop (i + 3)) "&".data = some j)
    (hb : ¬ url.length < i + 3 + j) :
    audioArmPlain (some dn) url = .ok (replaceRange url (i + 3) (i + 3 + j) dn) := by
  simp only [audioArmPlain]
  rw [h1]
  simp only [h2, Option.getD_some]
  rw [if_neg hb]

/-- C6 amended: in the plain-url/plain-url case, the video url's n-token is
replaced in place by the decryption of its *own* token, and the audio url's
n-token is replaced in place by the *cached* decryption of the video's token
(equal to decrypting its own token exactly when the two tokens coincide, as
the source's "The same n is used for video and audio" comment assumes); all
other query content is byte-identical in both urls. -/
theorem c6_n_substitution (dec callF callS : Str → Str)
    (bv hv : Nat) (mv : Str) (tr : Option Str) (ba : Nat) (ma : Str)
    (p tv rv q ta ra : Str)
    (h1 : subFind (p ++ "&n=".data ++ tv ++ '&' :: rv) "&n=".data = some p.length)
    (h2 : subFind (tv ++ '&' :: rv) "&".data = some tv.length)
    (h3 : subFind (q ++ "&n=".data ++ ta ++ '&' :: ra) "&n=".data = some q.length)
    (h4 : subFind (ta ++ '&' :: ra) "&".data = some ta.length) :
    resolveUrls dec callF callS
        (.video bv hv mv (p ++ "&n=".data ++ tv ++ '&' :: rv))
        (.audio tr ba ma (q ++ "&n=".data ++ ta ++ '&' :: ra))
      = .ok (p ++ "&n=".data ++ callF tv ++ '&' :: rv,
             q ++ "&n=".data ++ callF tv ++ '&' :: ra) := by
  have hdropv : (p ++ "&n=".data ++ tv ++ '&' :: rv).drop (p.length + 3)
      = tv ++ '&' :: rv := by
    rw [List.append_assoc (p ++ "&n=".data) tv ('&' :: rv)]
    exact List.drop_left' (by rw [List.length_append, nMark_len])
  have hdropa : (q ++ "&n=".data ++ ta ++ '&' :: ra).drop (q.length + 3)
      = ta ++ '&' :: ra := by
    rw [List.append_assoc (q ++ "&n=".data) ta ('&' :: ra)]
    exact List.drop_left' (by rw [List.length_append, nMark_len])
  have hslice : strSlice (p ++ "&n=".data ++ tv ++ '&' :: rv) (p.length + 3)
      (p.length + 3 + tv.length) = tv := by
    unfold strSlice
    rw [hdropv, Nat.add_sub_cancel_left, List.take_left]
  have hbv : ¬ (p ++ "&n=".data ++ tv ++ '&' :: rv).length < p.length + 3 + tv.length := by
    simp [List.length_append]
    omega
  have hba : ¬ (q ++ "&n=".data ++ ta ++ '&' :: ra).length < q.length + 3 + ta.length := by
    simp [List.length_append]
    omega
  have hreplv : replaceRange (p ++ "&n=".data ++ tv ++ '&' :: rv) (p.length + 3)
      (p.length + 3 + tv.length) (callF tv) = p ++ "&n=".data ++ callF tv ++ '&' :: rv := by
    unfold replaceRange
    rw [List.drop_left' (show ((p ++ "&n=".data) ++ tv).length = p.length + 3 + tv.length
      by simp [List.length_append, nMark_len]; omega)]
    rw [List.append_assoc (p ++ "&n=".data) tv ('&' :: rv)]
    rw [List.take_left' (by rw [List.length_append, nMark_len])]
  have hrepla : replaceRange (q ++ "&n=".data ++ ta ++ '&' :: ra) (q.length + 3)
      (q.length + 3 + ta.length) (callF tv) = q ++ "&n=".data ++ callF tv ++ '&' :: ra := by
    unfold replaceRange
    rw [List.drop_left' (show ((q ++ "&n=".data) ++ ta).length = q.length + 3 + ta.length
      by simp [List.length_append, nMark_len]; omega)]
    rw [List.append_assoc (q ++ "&n=".data) ta ('&' :: ra)]
    rw [List.take_left' (by rw [List.length_append, nMark_len])]
  simp only [resolveUrls]
  rw [videoArmPlain_eq_of callF _ p.length tv.length h1 (by rw [hdropv]; exact h2) hbv]
  simp only [audioSideResolve]
  rw [audioArmPlain_eq_of _ _ q.length ta.length h3 (by rw [hdropa]; exact h4) hba]
  rw [hslice, hreplv, hrepla]

/-- Witness for C6 (amended): the concrete counterexample urls, via the
general substitution theorem. -/
theorem c6_n_substitution_witness :
    resolveUrls strDecode callF0 callS210
        (.video 1 480 "m".data "v&n=AAA&x=1".data)
        (.audio Option.none 1 "m".data "a&n=BBB&y=2".data)
      = .ok ("v&n=VV&x=1".data, "a&n=VV&y=2".data) :=
  c6_n_substitution strDecode callF0 callS210 1 480 "m".data Option.none 1 "m".data
    "v".data "AAA".data "x=1".data "a".data "BBB".data "y=2".data
    (by decide) (by decide) (by decide) (by decide)

/-! ## Claim C7 -/

/-- Splitting on `'&'` leaves an ampersand-free string whole. -/
theorem splitAmp_no_amp (xs : Str) (h : '&' ∉ xs) : splitAmp xs = [xs] := by
  induction xs with
  | nil => rfl
  | cons c rest ih =>
    have hc : ¬ (c = '&') := by
      intro e
      exact h (by simp [e])
    have ih' := ih (fun hm => h (List.mem_cons_of_mem _ hm))
    simp [splitAmp, hc, ih']

/-- Splitting on `'&'` peels off an ampersand-free first field. -/
theorem splitAmp_append (xs ys : Str) (h : '&' ∉ xs) :
    splitAmp (xs ++ '&' :: ys) = xs :: splitAmp ys := by
  induction xs with
  | nil => simp [splitAmp]
  | cons c rest ih =>
    have hc : ¬ (c = '&') := by
      intro e
      exact h (by simp [e])
    have ih' := ih (fun hm => h (List.mem_cons_of_mem _ hm))
    simp [splitAmp, hc, ih']

/-- C7 counterexample: with url field `%25%33%41`, the code produces
`%%33A&sig=ZXY` (it replaces `%25` with `%` and then percent-decodes *once*),
whereas percent-decoding the url field twice gives `:` — so the claim's
"percent-decodes the URL field twice" does not hold of this cipher. -/
theorem c7_counterexample :
    decipher_signature strDecode callS210 "s=XYZ&sp=sig&url=%25%33%41".data
      = some "%%33A&sig=ZXY".data ∧
    strDecode (strDecode "%25%33%41".data) = ":".data ∧
    decipher_signature strDecode callS210 "s=XYZ&sp=sig&url=%25%33%41".data
      ≠ some (strDecode (strDecode "%25%33%41".data) ++ '&' :: "sig".data
          ++ '=' :: "ZXY".data) :=
  ⟨by decide, by decide, by decide⟩

/-- C7 amended: for a cipher of three `&`-separated fields in order
`s=<signature>`, `sp=<name>`, `url=<target>`, `decipher_signature` returns
`<decoded-url> ++ "&" ++ <name> ++ "=" ++ <descrambled>`, where `<decoded-url>`
is the url field with `%25` replaced by `%` and then percent-decoded once
(which agrees with percent-decoding twice on conventionally double-encoded
urls such as the spec's example), and `<descrambled>` comes from calling the
extracted function on the synthetic string of character positions and using
its answer's bytes as indices back into the percent-decoded signature. -/
theorem c7_decipher_structure (dec callS : Str → Str) (S P U d : Str)
    (hS : '&' ∉ S) (hP : '&' ∉ P) (hU : '&' ∉ U)
    (hd : descramble callS (dec S) = some d) :
    decipher_signature dec callS
        (("s=".data ++ S) ++ '&' :: (("sp=".data ++ P) ++ '&' :: ("url=".data ++ U)))
      = some (dec (replaceAll U "%25".data "%".data) ++ '&' :: P ++ '=' :: d) := by
  have hS' : '&' ∉ "s=".data ++ S := by
    intro hm
    rcases List.mem_append.mp hm with hm | hm
    · revert hm
      decide
    · exact hS hm
  have hP' : '&' ∉ "sp=".data ++ P := by
    intro hm
    rcases List.mem_append.mp hm with hm | hm
    · revert hm
      decide
    · exact hP hm
  have hU' : '&' ∉ "url=".data ++ U := by
    intro hm
    rcases List.mem_append.mp hm with hm | hm
    · revert hm
      decide
    · exact hU hm
  have hsplit : (splitAmp (("s=".data ++ S) ++ '&' ::
      (("sp=".data ++ P) ++ '&' :: ("url=".data ++ U)))).reverse
      = [("url=".data ++ U), ("sp=".data ++ P), ("s=".data ++ S)] := by
    rw [splitAmp_append _ _ hS', splitAmp_append _ _ hP', splitAmp_no_amp _ hU']
    rfl
  have hguard : ¬ (("url=".data ++ U).length < 4 ∨ ("sp=".data ++ P).length < 3 ∨
      ("s=".data ++ S).length < 2) := by
    simp [List.length_append]
  have hu : ("url=".data ++ U).drop 4 = U := List.drop_left' rfl
  have hp2 : ("sp=".data ++ P).drop 3 = P := List.drop_left' rfl
  have hs2 : ("s=".data ++ S).drop 2 = S := List.drop_left' rfl
  simp only [decipher_signature]
  rw [hsplit]
  simp only [if_neg hguard, hu, hp2, hs2, hd]

/-- Witness for C7 (amended) at the spec's example cipher: the url field is
singly encoded, so one decode pass (with the `%25` pre-replacement a no-op)
coincides with decoding twice, and the result is `http://example&sig=ZXY`. -/
theorem c7_decipher_structure_witness :
    decipher_signature strDecode callS210 "s=XYZ&sp=sig&url=http%3A%2F%2Fexample".data
      = some "http://example&sig=ZXY".data :=
  (c7_decipher_structure strDecode callS210 "XYZ".data "sig".data
    "http%3A%2F%2Fexample".data "ZXY".data (by decide) (by decide) (by decide)
    (by decide)).trans (by decide)
